import Mathlib

/-!
Shallow embedding of the calendar repository pieces under verification:

* `getByViewerHandler` and its helpers (`compareMembership`,
  `getPrismaWhereUserIdFromFilter`, the slug / role / read-only resolution and
  the event-type filter chain) from `src/apps/web/pages/my-page/index.tsx`;
* `adminVerifyHandler` from
  `src/packages/trpc/server/routers/viewer/organizations/adminVerify.handler.ts`,
  with the persistence store modelled as explicit lists of rows and every
  fallible step returning `Except`.

JavaScript strings are Lean `String`s; the JS `split` / `endsWith` primitives
are modelled over the character lists of the strings so that they evaluate
inside the kernel.  JS numbers that hold database ids are `Nat`; `position`
columns are `Int`.  Optional / nullable JS values are `Option`; JS truthiness
on ids and slugs (where `0`, `""`, `null` and `undefined` are falsy) is made
explicit through `truthyNat` / `truthyStr`.
-/

deriving instance DecidableEq for Except

/-- The prisma `MembershipRole` enum.  Modelled from the spec: the enum
declaration itself is not under `src/`; the spec fixes the canonical key order
MEMBER, ADMIN, OWNER used by `Object.keys(MembershipRole)`. -/
inductive MembershipRole where
  | MEMBER
  | ADMIN
  | OWNER
deriving DecidableEq, Repr, Fintype

/-- Key order of the `MembershipRole` object, as enumerated by
`Object.keys(MembershipRole)` (modelled from the spec, see `MembershipRole`). -/
def membershipRoleKeys : List MembershipRole :=
  [MembershipRole.MEMBER, MembershipRole.ADMIN, MembershipRole.OWNER]

/-- The inner `mshipToNumber` of `compareMembership`
(`src/apps/web/pages/my-page/index.tsx`, lines 370-371):
`Object.keys(MembershipRole).findIndex((mmship) => mmship === mship)`. -/
def mshipToNumber (mship : MembershipRole) : Nat :=
  membershipRoleKeys.findIdx (fun mmship => decide (mmship = mship))

/-- Embedding of `compareMembership`
(`src/apps/web/pages/my-page/index.tsx`, lines 369-373). -/
def compareMembership (mship1 mship2 : MembershipRole) : Bool :=
  decide (mshipToNumber mship1 > mshipToNumber mship2)

/-- The prisma `SchedulingType` enum (only the MANAGED variant is ever
inspected by the code under verification). -/
inductive SchedulingType where
  | ROUND_ROBIN
  | COLLECTIVE
  | MANAGED
deriving DecidableEq, Repr

/-- The `filters` object of the `getByViewer` input:
`{ userIds?: number[]; teamIds?: number[] }`. -/
structure Filters where
  userIds : Option (List Nat)
  teamIds : Option (List Nat)
deriving DecidableEq, Repr

/-- The `getByViewer` input: `{ filters?, forRoutingForms?: boolean }`
(an absent boolean behaves as `false` everywhere it is read). -/
structure GetByViewerInput where
  filters : Option Filters
  forRoutingForms : Bool
deriving DecidableEq, Repr

/-- Modelled from the spec: the `hasFilter` predicate lives in
`@calcom/features/filters/lib/hasFilter`, which is not under `src/`.  Spec:
a filter set is active only if it contains at least one non-empty criterion. -/
def hasFilter (filters : Filters) : Bool :=
  (match filters.userIds with
   | some l => !l.isEmpty
   | none => false) ||
  (match filters.teamIds with
   | some l => !l.isEmpty
   | none => false)

/-- The test `!input?.filters || !hasFilter(input?.filters)` that the handler
repeats at lines 499, 524 and 536 of `src/apps/web/pages/my-page/index.tsx`. -/
def filtersInactive (input : GetByViewerInput) : Bool :=
  match input.filters with
  | none => true
  | some f => !hasFilter f

/-- Embedding of `getPrismaWhereUserIdFromFilter`
(`src/apps/web/pages/my-page/index.tsx`, lines 614-624).  Note the asymmetry
with the group-inclusion check: only the FIRST entry of `filters.userIds` is
compared against the viewer id here. -/
def getPrismaWhereUserIdFromFilter (userId : Nat) (filters : Option Filters) : Nat :=
  match filters with
  | none => userId
  | some f =>
    if !hasFilter f then userId
    else if (match f.userIds with
             | some us => decide (us.head? = some userId)
             | none => false) then userId
    else 0

/-- A raw event-type row as selected by `userEventTypeSelect` /
`teamEventTypeSelect` (`src/apps/web/pages/my-page/index.tsx`, lines 326-367),
restricted to the columns the verified logic reads: `id`, `position`,
`userId`, `teamId`, `schedulingType`, the id of the selected `team` relation,
and the user ids of `hosts` and `users`. -/
structure EventType where
  id : Nat
  position : Int
  userId : Option Nat
  teamId : Option Nat
  schedulingType : Option SchedulingType
  teamRel : Option Nat
  hosts : List Nat
  users : List Nat
deriving DecidableEq, Repr

/-- The display shape produced by `mapEventType`
(`src/apps/web/pages/my-page/index.tsx`, lines 466-472): the raw row with the
`users` list resolved from the hosts when a non-empty host list is present. -/
structure MappedEventType where
  id : Nat
  position : Int
  userId : Option Nat
  teamId : Option Nat
  schedulingType : Option SchedulingType
  teamRel : Option Nat
  users : List Nat
deriving DecidableEq, Repr

/-- Embedding of `mapEventType`
(`src/apps/web/pages/my-page/index.tsx`, lines 466-472):
`users: !!eventType?.hosts?.length ? eventType?.hosts.map((host) => host.user) : eventType.users`. -/
def mapEventType (e : EventType) : MappedEventType :=
  { id := e.id
    position := e.position
    userId := e.userId
    teamId := e.teamId
    schedulingType := e.schedulingType
    teamRel := e.teamRel
    users := if e.hosts.isEmpty then e.users else e.hosts }

/-- A team row as selected inside the viewer query
(`src/apps/web/pages/my-page/index.tsx`, lines 402-427), restricted to the
columns the verified logic reads.  `members` is the list of member user ids
(used only for the membership count). -/
structure Team where
  id : Nat
  slug : Option String
  parentId : Option Nat
  isOrganization : Bool
  members : List Nat
  eventTypes : List EventType
deriving DecidableEq, Repr

/-- A membership row of the viewer (`user.teams` element); the store query
keeps only rows with `accepted: true`, which `acceptedMemberships` models. -/
structure MembershipRow where
  role : MembershipRole
  accepted : Bool
  team : Team
deriving DecidableEq, Repr

/-- The viewer record loaded by the handler query
(`src/apps/web/pages/my-page/index.tsx`, lines 383-449), restricted to the
fields the verified logic reads.  `eventTypes` holds the raw personal
event-type relation rows before the query `where` clause is applied. -/
structure UserRecord where
  id : Nat
  username : Option String
  organizationId : Option Nat
  teams : List MembershipRow
  eventTypes : List EventType
deriving DecidableEq, Repr

/-- The `where: { accepted: true }` clause of the teams relation in the viewer
query (`src/apps/web/pages/my-page/index.tsx`, lines 396-399). -/
def acceptedMemberships (u : UserRecord) : List MembershipRow :=
  u.teams.filter (fun m => m.accepted)

/-- The `where: { teamId: null, userId: getPrismaWhereUserIdFromFilter(...) }`
clause of the personal event-type relation in the viewer query
(`src/apps/web/pages/my-page/index.tsx`, lines 431-435). -/
def personalEventTypeRows (u : UserRecord) (filters : Option Filters) : List EventType :=
  u.eventTypes.filter (fun e =>
    decide (e.teamId = none) &&
    decide (e.userId = some (getPrismaWhereUserIdFromFilter u.id filters)))

/-- Ordering by descending `position` with ties broken by ascending `id`, as a
boolean comparator (the key order of both the prisma `orderBy` clauses and the
lodash `orderBy(_, ["position", "id"], ["desc", "asc"])` call). -/
def posIdLe (a b : MappedEventType) : Bool :=
  decide (b.position < a.position) ||
  (decide (a.position = b.position) && decide (a.id ≤ b.id))

/-- Propositional form of `posIdLe`. -/
def PosIdOrder (a b : MappedEventType) : Prop :=
  b.position < a.position ∨ (a.position = b.position ∧ a.id ≤ b.id)

/-- The same ordering on raw event-type rows (for the store-side `orderBy`
hypotheses; `mapEventType` preserves `position` and `id`). -/
def PosIdOrderRaw (a b : EventType) : Prop :=
  b.position < a.position ∨ (a.position = b.position ∧ a.id ≤ b.id)

instance (a b : MappedEventType) : Decidable (PosIdOrder a b) :=
  inferInstanceAs (Decidable (_ ∨ _))

instance (a b : EventType) : Decidable (PosIdOrderRaw a b) :=
  inferInstanceAs (Decidable (_ ∨ _))

/-- Embedding of `orderBy(unmanagedEventTypes, ["position", "id"], ["desc", "asc"])`
(`src/apps/web/pages/my-page/index.tsx`, line 510); lodash orderBy is a stable
sort by the given keys, modelled with the stable `List.mergeSort`. -/
def orderByPosDescIdAsc (l : List MappedEventType) : List MappedEventType :=
  l.mergeSort posIdLe

/-- The filter producing `unmanagedEventTypes`
(`src/apps/web/pages/my-page/index.tsx`, lines 495-497), applied to the mapped
personal event types. -/
def unmanagedEventTypes (u : UserRecord) (filters : Option Filters) : List MappedEventType :=
  ((personalEventTypeRows u filters).map mapEventType).filter
    (fun e => decide (e.schedulingType ≠ some SchedulingType.MANAGED))

/-- The guard of the personal-group push
(`src/apps/web/pages/my-page/index.tsx`, line 499):
`!input?.filters || !hasFilter(input?.filters) || input?.filters?.userIds?.includes(user.id)`
(an absent `userIds` makes the third disjunct undefined, hence falsy). -/
def includePersonalGroup (input : GetByViewerInput) (viewerId : Nat) : Bool :=
  match input.filters with
  | none => true
  | some f =>
    !hasFilter f ||
    (match f.userIds with
     | some us => decide (viewerId ∈ us)
     | none => false)

/-- The `profile` block of a group, restricted to the `slug` field the claims
are about. -/
structure GroupProfile where
  slug : Option String
deriving DecidableEq, Repr

/-- The `metadata` block of a group. -/
structure GroupMetadata where
  membershipCount : Nat
  readOnly : Bool
deriving DecidableEq, Repr

/-- One element of `eventTypeGroups`
(`src/apps/web/pages/my-page/index.tsx`, lines 476-491), restricted to the
fields the claims are about. -/
structure EventTypeGroup where
  teamId : Option Nat
  parentId : Option Nat
  membershipRole : Option MembershipRole
  profile : GroupProfile
  metadata : GroupMetadata
  eventTypes : List MappedEventType
deriving DecidableEq, Repr

/-- One element of the `profiles` projection of the result
(`src/apps/web/pages/my-page/index.tsx`, lines 605-610). -/
structure ProfileSummary where
  slug : Option String
  membershipCount : Nat
  readOnly : Bool
  teamId : Option Nat
  membershipRole : Option MembershipRole
deriving DecidableEq, Repr

/-- The handler result `{ eventTypeGroups, profiles }`. -/
structure GetByViewerResult where
  eventTypeGroups : List EventTypeGroup
  profiles : List ProfileSummary
deriving DecidableEq, Repr

/-- The personal group pushed at lines 501-515 of
`src/apps/web/pages/my-page/index.tsx` (booker url, display name and avatar
omitted). -/
def personalGroup (u : UserRecord) (filters : Option Filters) : EventTypeGroup :=
  { teamId := none
    parentId := none
    membershipRole := none
    profile := { slug := u.username }
    metadata := { membershipCount := 1, readOnly := false }
    eventTypes := orderByPosDescIdAsc (unmanagedEventTypes u filters) }

/-- The `teamMemberships` projection
(`src/apps/web/pages/my-page/index.tsx`, lines 518-521): pairs of team id and
membership role over the (accepted) memberships of the viewer. -/
def teamMembershipsOf (u : UserRecord) : List (Nat × MembershipRole) :=
  (acceptedMemberships u).map (fun m => (m.team.id, m.role))

/-- The `orgMembership` lookup
(`src/apps/web/pages/my-page/index.tsx`, lines 543-545): the role of the first
membership whose team id strictly equals the parent id of the current team
(a null parent id never equals a team id under the JS `===`). -/
def findOrgMembership (u : UserRecord) (parentId : Option Nat) : Option MembershipRole :=
  ((teamMembershipsOf u).find? (fun tm => decide (parentId = some tm.1))).map Prod.snd

/-- JS truthiness of a nullable id: null / undefined and 0 are falsy. -/
def truthyNat : Option Nat → Bool
  | none => false
  | some n => decide (n ≠ 0)

/-- JS truthiness of a nullable string: null / undefined and the empty string
are falsy. -/
def truthyStr : Option String → Bool
  | none => false
  | some s => decide (s ≠ "")

/-- JS template-literal rendering of a nullable string: null renders as the
four characters "null". -/
def jsTemplateOptStr : Option String → String
  | none => "null"
  | some s => s

/-- Embedding of the slug resolution
(`src/apps/web/pages/my-page/index.tsx`, lines 552-561).  In the
routing-forms branch the code interpolates `team.slug` into a template
literal unconditionally, so a null slug renders as the text "null". -/
def resolveTeamSlug (forRoutingForms : Bool) (team : Team) : Option String :=
  if forRoutingForms then
    some ("team/" ++ jsTemplateOptStr team.slug)
  else
    if truthyStr team.slug then
      if !truthyNat team.parentId then some ("team/" ++ jsTemplateOptStr team.slug)
      else some (jsTemplateOptStr team.slug)
    else none

/-- The `membershipRole` expression of a team group
(`src/apps/web/pages/my-page/index.tsx`, lines 566-569):
`orgMembership && compareMembership(orgMembership, membership.role) ? orgMembership : membership.role`
(every role string is truthy, so the first conjunct is presence). -/
def effectiveMembershipRole (orgMembership : Option MembershipRole)
    (role : MembershipRole) : MembershipRole :=
  match orgMembership with
  | some o => if compareMembership o role then o else role
  | none => role

/-- The `readOnly` expression of a team group
(`src/apps/web/pages/my-page/index.tsx`, lines 581-587), which re-derives the
upgraded role but compares against the literal MEMBER baseline in the
non-upgraded branches. -/
def teamGroupReadOnly (orgMembership : Option MembershipRole)
    (role : MembershipRole) (parentId : Option Nat) : Bool :=
  decide (role =
    (if truthyNat parentId then
       (match orgMembership with
        | some o => if compareMembership o role then o else MembershipRole.MEMBER
        | none => MembershipRole.MEMBER)
     else MembershipRole.MEMBER))

/-- Embedding of `filterTeamsEventTypesBasedOnInput`
(`src/apps/web/pages/my-page/index.tsx`, lines 523-528):
`input?.filters?.teamIds?.includes(eventType?.team?.id || 0) ?? false`
when a filter set is active. -/
def filterTeamsEventTypesBasedOnInput (input : GetByViewerInput)
    (e : MappedEventType) : Bool :=
  if filtersInactive input then true
  else
    match input.filters with
    | some f =>
      (match f.teamIds with
       | some ts => decide (e.teamRel.getD 0 ∈ ts)
       | none => false)
    | none => false

/-- The first two stages of the team-group event-type chain
(`src/apps/web/pages/my-page/index.tsx`, lines 589-592): map, input filter,
and the owner filter `evType.userId === null || evType.userId === ctx.user.id`. -/
def teamGroupEventTypesBeforeRoleFilter (input : GetByViewerInput)
    (viewerId : Nat) (m : MembershipRow) : List MappedEventType :=
  ((m.team.eventTypes.map mapEventType).filter
      (filterTeamsEventTypesBasedOnInput input)).filter
    (fun e => decide (e.userId = none) || decide (e.userId = some viewerId))

/-- The full team-group event-type chain
(`src/apps/web/pages/my-page/index.tsx`, lines 589-597), adding the role
filter: a plain MEMBER does not see MANAGED event types. -/
def teamGroupEventTypes (input : GetByViewerInput) (viewerId : Nat)
    (m : MembershipRow) : List MappedEventType :=
  (teamGroupEventTypesBeforeRoleFilter input viewerId m).filter
    (fun e =>
      if m.role = MembershipRole.MEMBER then
        decide (e.schedulingType ≠ some SchedulingType.MANAGED)
      else true)

/-- The membership filter of the team-group construction
(`src/apps/web/pages/my-page/index.tsx`, lines 532-541): organization root
teams are dropped; with an active filter set the team id must appear in
`input.filters.teamIds` (`?? false` when the criterion is absent). -/
def includeTeamMembership (input : GetByViewerInput) (m : MembershipRow) : Bool :=
  if m.team.isOrganization then false
  else if filtersInactive input then true
  else
    match input.filters with
    | some f =>
      (match f.teamIds with
       | some ts => decide (m.team.id ∈ ts)
       | none => false)
    | none => false

/-- One team group as built at lines 542-598 of
`src/apps/web/pages/my-page/index.tsx` (booker url, display name and avatar
omitted). -/
def mkTeamGroup (u : UserRecord) (input : GetByViewerInput)
    (m : MembershipRow) : EventTypeGroup :=
  { teamId := some m.team.id
    parentId := m.team.parentId
    membershipRole :=
      some (effectiveMembershipRole (findOrgMembership u m.team.parentId) m.role)
    profile := { slug := resolveTeamSlug input.forRoutingForms m.team }
    metadata :=
      { membershipCount := m.team.members.length
        readOnly :=
          teamGroupReadOnly (findOrgMembership u m.team.parentId) m.role
            m.team.parentId }
    eventTypes := teamGroupEventTypes input u.id m }

/-- The list of team groups concatenated after the personal group
(`src/apps/web/pages/my-page/index.tsx`, lines 529-600). -/
def teamGroups (u : UserRecord) (input : GetByViewerInput) : List EventTypeGroup :=
  ((acceptedMemberships u).filter (includeTeamMembership input)).map
    (mkTeamGroup u input)

/-- Embedding of the pure part of `getByViewerHandler`
(`src/apps/web/pages/my-page/index.tsx`, lines 375-612), taking the loaded
viewer record as input (rate limiting and the not-found guard of the loader
are outside every claim). -/
def getByViewer (u : UserRecord) (input : GetByViewerInput) : GetByViewerResult :=
  let personal :=
    if includePersonalGroup input u.id then [personalGroup u input.filters] else []
  let groups := personal ++ teamGroups u input
  { eventTypeGroups := groups
    profiles := groups.map (fun g =>
      { slug := g.profile.slug
        membershipCount := g.metadata.membershipCount
        readOnly := g.metadata.readOnly
        teamId := g.teamId
        membershipRole := g.membershipRole }) }

/-- JS `s.endsWith(t)`, modelled over the character lists of the strings. -/
def strEndsWith (s t : String) : Bool :=
  t.data.isSuffixOf s.data

/-- JS `email.split("@")`, modelled over the character list of the string. -/
def strSplitOnAt (s : String) : List String :=
  (s.data.splitOn '@').map (fun cs => String.mk cs)

/-- A user row of the store, restricted to the columns `adminVerifyHandler`
reads or writes. -/
structure DbUser where
  id : Nat
  email : String
  organizationId : Option Nat
deriving DecidableEq, Repr

/-- A membership row of the store. -/
structure DbMembership where
  userId : Nat
  teamId : Nat
  role : MembershipRole
  accepted : Bool
deriving DecidableEq, Repr

/-- A team row of the store, restricted to the columns `adminVerifyHandler`
reads. -/
structure DbTeam where
  id : Nat
  parentId : Option Nat
  isOrganization : Bool
deriving DecidableEq, Repr

/-- A row of the `organizationSettings` table. -/
structure OrgSettings where
  organizationId : Nat
  isOrganizationVerified : Bool
deriving DecidableEq, Repr

/-- The persistence store visible to `adminVerifyHandler`, as explicit lists
of rows. -/
structure Db where
  users : List DbUser
  teams : List DbTeam
  memberships : List DbMembership
  orgSettings : List OrgSettings
deriving DecidableEq, Repr

/-- Error outcomes of `adminVerifyHandler`: the thrown `TRPCError` with code
FORBIDDEN, and the runtime failures of the unguarded paths (reading
`members[0].user.email` of an organization without OWNER members, a broken
user foreign key, or the `organizationSettings.update` call finding no row). -/
inductive AdminVerifyError where
  | forbidden (message : String)
  | runtimeError
deriving DecidableEq, Repr

/-- The relation filter `team: { parentId: input.orgId }` of the membership
batch update (`adminVerify.handler.ts`, lines 75-80): the membership passes
when its team row has the organization as parent. -/
def membershipTeamParentIs (teams : List DbTeam) (m : DbMembership) (orgId : Nat) : Bool :=
  match teams.find? (fun t => decide (t.id = m.teamId)) with
  | some t => decide (t.parentId = some orgId)
  | none => false

/-- The `foundOrg` query (`adminVerify.handler.ts`, lines 16-31):
`prisma.team.findFirst({ where: { id: input.orgId, isOrganization: true } })`. -/
def findOrg (db : Db) (orgId : Nat) : Option DbTeam :=
  db.teams.find? (fun t => decide (t.id = orgId) && t.isOrganization)

/-- The included `members` of `foundOrg` (`adminVerify.handler.ts`,
lines 21-30): the memberships of the organization whose role is OWNER, in
store order. -/
def ownerMembers (db : Db) (orgId : Nat) : List DbMembership :=
  db.memberships.filter (fun m =>
    decide (m.teamId = orgId) && decide (m.role = MembershipRole.OWNER))

/-- The `foundUsersWithMatchingEmailDomain` query (`adminVerify.handler.ts`,
lines 50-65): users whose email ends with the accepted domain and who hold
some membership of the organization. -/
def usersWithMatchingEmailDomain (db : Db) (orgId : Nat) (domain : String) : List DbUser :=
  db.users.filter (fun usr =>
    strEndsWith usr.email domain &&
    db.memberships.any (fun m =>
      decide (m.userId = usr.id) && decide (m.teamId = orgId)))

/-- Embedding of `adminVerifyHandler`
(`src/packages/trpc/server/routers/viewer/organizations/adminVerify.handler.ts`,
lines 15-106).  The handler returns the outcome together with the resulting
store state; every error leaves the store it failed over unchanged except that
the missing-settings failure happens before any write as well (the
`organizationSettings.update` call throws instead of writing when no row
matches). -/
def adminVerifyHandler (db : Db) (orgId : Nat) : Except AdminVerifyError String × Db :=
  match findOrg db orgId with
  | none =>
    (Except.error (AdminVerifyError.forbidden "This team isnt a org or doesnt exist"), db)
  | some _ =>
    match (ownerMembers db orgId).head? with
    | none => (Except.error AdminVerifyError.runtimeError, db)
    | some m0 =>
      match db.users.find? (fun usr => decide (usr.id = m0.userId)) with
      | none => (Except.error AdminVerifyError.runtimeError, db)
      | some owner =>
        match (strSplitOnAt owner.email).get? 1 with
        | none => (Except.error AdminVerifyError.runtimeError, db)
        | some acceptedEmailDomain =>
          if !db.orgSettings.any (fun s => decide (s.organizationId = orgId)) then
            (Except.error AdminVerifyError.runtimeError, db)
          else
            let db1 : Db :=
              { db with
                orgSettings := db.orgSettings.map (fun s =>
                  if s.organizationId = orgId then
                    { s with isOrganizationVerified := true }
                  else s) }
            let userIds :=
              (usersWithMatchingEmailDomain db1 orgId acceptedEmailDomain).map DbUser.id
            let db2 : Db :=
              { db1 with
                memberships := db1.memberships.map (fun m =>
                  if decide (m.userId ∈ userIds) &&
                      (membershipTeamParentIs db1.teams m orgId ||
                        decide (m.teamId = orgId)) then
                    { m with accepted := true }
                  else m)
                users := db1.users.map (fun usr =>
                  if usr.id ∈ userIds then
                    { usr with organizationId := some orgId }
                  else usr) }
            (Except.ok
              ("Verified Organization - Auto accepted all members ending in " ++
                acceptedEmailDomain),
              db2)

/-!
Spec-level definitions, written from the words of the spec / claims so that
the code-level definitions above can be compared against them.
-/

/-- Spec-level role strength: the numeric index of the role in the canonical
ordering MEMBER < ADMIN < OWNER. -/
def roleStrength : MembershipRole → Nat
  | MembershipRole.MEMBER => 0
  | MembershipRole.ADMIN => 1
  | MembershipRole.OWNER => 2

/-- Spec-level choice of the stronger of two roles (first the parent-org role,
then the native team role); on equal strength the two roles coincide. -/
def strongerRole (orgRole teamRole : MembershipRole) : MembershipRole :=
  if roleStrength orgRole > roleStrength teamRole then orgRole else teamRole

/-- Spec-level slug resolution as amended: in a routing-forms request the slug
is "team/" followed by the JS rendering of the team slug (a null slug renders
as the text "null"); otherwise a null slug resolves to nil, a team without a
parent gets the "team/" marker and an org sub-team keeps the bare slug. -/
def resolvedSlugSpecAmended (forRoutingForms : Bool) (team : Team) : Option String :=
  if forRoutingForms then
    some ("team/" ++ (match team.slug with
      | some s => s
      | none => "null"))
  else
    match team.slug with
    | none => none
    | some s => if team.parentId = none then some ("team/" ++ s) else some s

/-!
Concrete fixtures used by the counterexample and witness theorems below.
-/

/-- Fixture (claim C1): viewer 1 holds one accepted membership of the
non-organization team 7. -/
def c1Viewer : UserRecord :=
  { id := 1
    username := some "alice"
    organizationId := none
    teams := [{ role := MembershipRole.MEMBER, accepted := true,
                team := { id := 7, slug := some "sales", parentId := none,
                          isOrganization := false, members := [1], eventTypes := [] } }]
    eventTypes := [] }

/-- Fixture (claim C1): an active filter set that lists only user ids. -/
def c1Input : GetByViewerInput :=
  { filters := some { userIds := some [1], teamIds := none }, forRoutingForms := false }

/-- Fixture (claim C1 witness): a viewer with memberships of teams 7 and 8. -/
def c1wViewer : UserRecord :=
  { id := 1
    username := some "alice"
    organizationId := none
    teams := [{ role := MembershipRole.MEMBER, accepted := true,
                team := { id := 7, slug := some "sales", parentId := none,
                          isOrganization := false, members := [1], eventTypes := [] } },
              { role := MembershipRole.ADMIN, accepted := true,
                team := { id := 8, slug := some "ops", parentId := none,
                          isOrganization := false, members := [1], eventTypes := [] } }]
    eventTypes := [] }

/-- Fixture (claim C1 witness): an active filter set listing team 8 only. -/
def c1wFilters : Filters :=
  { userIds := none, teamIds := some [8] }

/-- Fixture (claim C1 witness): the input wrapping `c1wFilters`. -/
def c1wInput : GetByViewerInput :=
  { filters := some c1wFilters, forRoutingForms := false }

/-- Fixture (claim C2): viewer 1 holds one accepted membership of team 5,
whose slug is null. -/
def c2Viewer : UserRecord :=
  { id := 1
    username := some "alice"
    organizationId := none
    teams := [{ role := MembershipRole.ADMIN, accepted := true,
                team := { id := 5, slug := none, parentId := none,
                          isOrganization := false, members := [1], eventTypes := [] } }]
    eventTypes := [] }

/-- Fixture (claim C2): a routing-forms request with no filters. -/
def c2Input : GetByViewerInput :=
  { filters := none, forRoutingForms := true }

/-- Fixture (claim C2 witness): an org sub-team with a non-null slug. -/
def c2wMembership : MembershipRow :=
  { role := MembershipRole.MEMBER, accepted := true,
    team := { id := 5, slug := some "sales", parentId := some 2,
              isOrganization := false, members := [1], eventTypes := [] } }

/-- Fixture (claim C2 witness): the viewer holding `c2wMembership`. -/
def c2wViewer : UserRecord :=
  { id := 1
    username := some "alice"
    organizationId := some 2
    teams := [c2wMembership]
    eventTypes := [] }

/-- Fixture (claim C2 witness): a non-routing-forms request. -/
def c2wInput : GetByViewerInput :=
  { filters := none, forRoutingForms := false }

/-- Fixture (claim C3): a personal, non-managed event type owned by viewer 1. -/
def c3EventType : EventType :=
  { id := 1, position := 0, userId := some 1, teamId := none,
    schedulingType := none, teamRel := none, hosts := [], users := [1] }

/-- Fixture (claim C3): viewer 1 with the single personal event type. -/
def c3Viewer : UserRecord :=
  { id := 1
    username := some "alice"
    organizationId := none
    teams := []
    eventTypes := [c3EventType] }

/-- Fixture (claim C3): an active filter whose userIds list contains the
viewer id, but not in first position. -/
def c3Input : GetByViewerInput :=
  { filters := some { userIds := some [2, 1], teamIds := none }, forRoutingForms := false }

/-- Fixture (claim C3 witness): two personal event types of viewer 1, stored
in ascending position order, plus one MANAGED personal event type. -/
def c3wViewer : UserRecord :=
  { id := 1
    username := some "alice"
    organizationId := none
    teams := []
    eventTypes :=
      [{ id := 4, position := 1, userId := some 1, teamId := none,
         schedulingType := none, teamRel := none, hosts := [], users := [1] },
       { id := 3, position := 5, userId := some 1, teamId := none,
         schedulingType := none, teamRel := none, hosts := [], users := [1] },
       { id := 6, position := 5, userId := some 1, teamId := none,
         schedulingType := some SchedulingType.MANAGED, teamRel := none,
         hosts := [], users := [1] }] }

/-- Fixture (claim C3 witness): a request with no filter set. -/
def c3wInput : GetByViewerInput :=
  { filters := none, forRoutingForms := false }

/-- Fixture (claim C4 witness): viewer 1 is OWNER of organization 2 and plain
MEMBER of its sub-team 3. -/
def c4Viewer : UserRecord :=
  { id := 1
    username := some "alice"
    organizationId := some 2
    teams := [{ role := MembershipRole.OWNER, accepted := true,
                team := { id := 2, slug := some "acme", parentId := none,
                          isOrganization := true, members := [1, 9], eventTypes := [] } },
              { role := MembershipRole.MEMBER, accepted := true,
                team := { id := 3, slug := some "sales", parentId := some 2,
                          isOrganization := false, members := [1, 9], eventTypes := [] } }]
    eventTypes := [] }

/-- Fixture (claim C4 witness): a request with no filter set. -/
def c4Input : GetByViewerInput :=
  { filters := none, forRoutingForms := false }

/-- Fixture (claim C5 witness): team 9 with a MANAGED event type, a plain
event type and an event type pinned to another user. -/
def c5Team : Team :=
  { id := 9, slug := some "sales", parentId := none, isOrganization := false,
    members := [1, 2]
    eventTypes :=
      [{ id := 21, position := 0, userId := none, teamId := some 9,
         schedulingType := some SchedulingType.MANAGED, teamRel := some 9,
         hosts := [], users := [] },
       { id := 22, position := 0, userId := none, teamId := some 9,
         schedulingType := some SchedulingType.COLLECTIVE, teamRel := some 9,
         hosts := [], users := [] },
       { id := 23, position := 0, userId := some 2, teamId := some 9,
         schedulingType := none, teamRel := some 9, hosts := [], users := [] }] }

/-- Fixture (claim C5 witness): viewer 1 as plain MEMBER of team 9. -/
def c5Viewer : UserRecord :=
  { id := 1
    username := some "alice"
    organizationId := none
    teams := [{ role := MembershipRole.MEMBER, accepted := true, team := c5Team }]
    eventTypes := [] }

/-- Fixture (claim C5 witness): a request with no filter set. -/
def c5Input : GetByViewerInput :=
  { filters := none, forRoutingForms := false }

/-- Fixture (claim C6 witness): the admin-verify end-to-end scenario of the
spec, with organization 1, an OWNER whose email domain is acme.com, and two
further members. -/
def c6Db : Db :=
  { users := [{ id := 10, email := "owner@acme.com", organizationId := none },
              { id := 11, email := "a@acme.com", organizationId := none },
              { id := 12, email := "b@other.com", organizationId := none }]
    teams := [{ id := 1, parentId := none, isOrganization := true }]
    memberships := [{ userId := 10, teamId := 1, role := MembershipRole.OWNER, accepted := true },
                    { userId := 11, teamId := 1, role := MembershipRole.MEMBER, accepted := false },
                    { userId := 12, teamId := 1, role := MembershipRole.MEMBER, accepted := false }]
    orgSettings := [{ organizationId := 1, isOrganizationVerified := false }] }

/-- Fixture (claim C7 witness): a store whose only team is not an
organization. -/
def c7Db : Db :=
  { users := []
    teams := [{ id := 3, parentId := none, isOrganization := false }]
    memberships := []
    orgSettings := [] }

/-- Fixture (claim C8 witness): viewer 1 with personal event types stored out
of display order and one team whose event types are store-ordered by
(position desc, id asc). -/
def c8Viewer : UserRecord :=
  { id := 1
    username := some "alice"
    organizationId := none
    teams := [{ role := MembershipRole.ADMIN, accepted := true,
                team := { id := 4, slug := some "sales", parentId := none,
                          isOrganization := false, members := [1]
                          eventTypes :=
                            [{ id := 31, position := 7, userId := none, teamId := some 4,
                               schedulingType := some SchedulingType.COLLECTIVE,
                               teamRel := some 4, hosts := [], users := [] },
                             { id := 32, position := 7, userId := none, teamId := some 4,
                               schedulingType := some SchedulingType.COLLECTIVE,
                               teamRel := some 4, hosts := [], users := [] },
                             { id := 30, position := 2, userId := none, teamId := some 4,
                               schedulingType := some SchedulingType.COLLECTIVE,
                               teamRel := some 4, hosts := [], users := [] }] } }]
    eventTypes :=
      [{ id := 41, position := 1, userId := some 1, teamId := none,
         schedulingType := none, teamRel := none, hosts := [], users := [1] },
       { id := 40, position := 6, userId := some 1, teamId := none,
         schedulingType := none, teamRel := none, hosts := [], users := [1] }] }

/-- Fixture (claim C8 witness): a request with no filter set. -/
def c8Input : GetByViewerInput :=
  { filters := none, forRoutingForms := false }

/-- Fixture (claim C10): organization 1 exists and is flagged isOrganization,
but holds no OWNER-role membership. -/
def c10Db : Db :=
  { users := [{ id := 11, email := "a@acme.com", organizationId := none }]
    teams := [{ id := 1, parentId := none, isOrganization := true }]
    memberships := [{ userId := 11, teamId := 1, role := MembershipRole.ADMIN, accepted := true }]
    orgSettings := [{ organizationId := 1, isOrganizationVerified := false }] }

/-!
Helper lemmas shared by the claim theorems.
-/

theorem posIdLe_eq_true_iff (a b : MappedEventType) :
    posIdLe a b = true ↔ PosIdOrder a b := by
  simp [posIdLe, PosIdOrder]

theorem posIdLe_trans :
    ∀ a b c : MappedEventType,
      posIdLe a b = true → posIdLe b c = true → posIdLe a c = true := by
  intro a b c hab hbc
  rw [posIdLe_eq_true_iff] at *
  unfold PosIdOrder at *
  omega

theorem posIdLe_total :
    ∀ a b : MappedEventType, (posIdLe a b || posIdLe b a) = true := by
  intro a b
  rw [Bool.or_eq_true, posIdLe_eq_true_iff, posIdLe_eq_true_iff]
  unfold PosIdOrder
  omega

theorem pairwise_orderBy (l : List MappedEventType) :
    (orderByPosDescIdAsc l).Pairwise PosIdOrder := by
  have h := List.sorted_mergeSort posIdLe_trans posIdLe_total l
  exact h.imp (fun hab => (posIdLe_eq_true_iff _ _).mp hab)

theorem mem_orderBy {e : MappedEventType} {l : List MappedEventType} :
    e ∈ orderByPosDescIdAsc l ↔ e ∈ l :=
  List.mem_mergeSort

theorem eventTypeGroups_eq (u : UserRecord) (input : GetByViewerInput) :
    (getByViewer u input).eventTypeGroups =
      (if includePersonalGroup input u.id then [personalGroup u input.filters] else []) ++
        teamGroups u input := rfl

theorem mem_teamGroups {u : UserRecord} {input : GetByViewerInput} {g : EventTypeGroup} :
    g ∈ teamGroups u input ↔
      ∃ m, m ∈ acceptedMemberships u ∧ includeTeamMembership input m = true ∧
        mkTeamGroup u input m = g := by
  simp [teamGroups, List.mem_map, List.mem_filter, and_assoc]

theorem teamGroup_of_mem {u : UserRecord} {input : GetByViewerInput} {g : EventTypeGroup}
    (hg : g ∈ (getByViewer u input).eventTypeGroups) (hne : g.teamId ≠ none) :
    ∃ m, m ∈ acceptedMemberships u ∧ includeTeamMembership input m = true ∧
      mkTeamGroup u input m = g := by
  rw [eventTypeGroups_eq] at hg
  rcases List.mem_append.mp hg with hp | ht
  · exfalso
    cases hpg : includePersonalGroup input u.id <;> rw [hpg] at hp
    · simp at hp
    · simp at hp
      apply hne
      rw [hp]
      rfl
  · exact mem_teamGroups.mp ht

theorem findOrgMembership_parent_none (u : UserRecord) :
    findOrgMembership u none = none := by
  unfold findOrgMembership
  rw [List.find?_eq_none.mpr]
  · rfl
  · intro x _
    simp

theorem effectiveRole_eq_strongerRole :
    ∀ o r : MembershipRole, effectiveMembershipRole (some o) r = strongerRole o r := by
  decide

theorem compare_true_facts :
    ∀ o r : MembershipRole,
      compareMembership o r = true → r ≠ o ∧ o ≠ MembershipRole.MEMBER := by
  decide

theorem readOnly_eq_of_parent (orgM : Option MembershipRole) (role : MembershipRole)
    (parentId : Option Nat) (ht : truthyNat parentId = true) :
    (teamGroupReadOnly orgM role parentId = true ↔
      effectiveMembershipRole orgM role = MembershipRole.MEMBER) := by
  unfold teamGroupReadOnly
  simp only [ht]
  cases orgM with
  | none => cases role <;> decide
  | some o => cases o <;> cases role <;> decide

/-!
Claim C9.
-/

/-- Claim C9: for roles drawn from the ordered sequence MEMBER, ADMIN, OWNER,
compareMembership(a, b) is true iff the index of a in that sequence exceeds
the index of b; in particular compareMembership(MEMBER, OWNER) is false,
compareMembership(OWNER, MEMBER) is true and compareMembership(ADMIN, ADMIN)
is false. -/
theorem compareMembership_iff_index_gt :
    (∀ a b : MembershipRole,
      compareMembership a b = true ↔
        membershipRoleKeys.indexOf a > membershipRoleKeys.indexOf b) ∧
    compareMembership MembershipRole.MEMBER MembershipRole.OWNER = false ∧
    compareMembership MembershipRole.OWNER MembershipRole.MEMBER = true ∧
    compareMembership MembershipRole.ADMIN MembershipRole.ADMIN = false := by
  decide

/-!
Claim C10.
-/

/-- Claim C10: on a store holding an organization flagged isOrganization with
no OWNER-role member, the handler reaches the unguarded members[0] access and
cannot return a result; the outcome is the runtime-failure branch, not the
forbidden branch, and the store is unchanged. -/
theorem adminVerify_unguarded_owner_access :
    findOrg c10Db 1 = some { id := 1, parentId := none, isOrganization := true } ∧
    ownerMembers c10Db 1 = [] ∧
    adminVerifyHandler c10Db 1 = (Except.error AdminVerifyError.runtimeError, c10Db) := by
  decide

/-!
Claim C7.
-/

/-- Claim C7: when no team with the given id is flagged isOrganization, the
handler fails with the forbidden-class error and the store state is
unchanged. -/
theorem adminVerify_forbidden_no_writes (db : Db) (orgId : Nat)
    (h : ∀ t ∈ db.teams, ¬(t.id = orgId ∧ t.isOrganization = true)) :
    adminVerifyHandler db orgId =
      (Except.error (AdminVerifyError.forbidden "This team isnt a org or doesnt exist"), db) := by
  have hfind : findOrg db orgId = none := by
    apply List.find?_eq_none.mpr
    intro t ht hc
    rcases (Bool.and_eq_true _ _).mp hc with ⟨h1, h2⟩
    exact h t ht ⟨of_decide_eq_true h1, h2⟩
  unfold adminVerifyHandler
  rw [hfind]

/-- Witness for claim C7: a concrete store whose only team is not an
organization. -/
theorem adminVerify_forbidden_no_writes_witness :
    (∀ t ∈ c7Db.teams, ¬(t.id = 1 ∧ t.isOrganization = true)) ∧
    adminVerifyHandler c7Db 1 =
      (Except.error (AdminVerifyError.forbidden "This team isnt a org or doesnt exist"), c7Db) :=
  ⟨by decide, adminVerify_forbidden_no_writes c7Db 1 (by decide)⟩

/-!
Claim C2.
-/

/-- Counterexample to claim C2 as stated: in a routing-forms request over a
team whose slug is null, the produced group resolves the slug to the string
"team/null" instead of nil. -/
theorem routingForms_null_slug_counterexample :
    (getByViewer c2Viewer c2Input).eventTypeGroups.map (fun g => g.profile.slug) =
      [some "alice", some "team/null"] ∧
    (acceptedMemberships c2Viewer).map (fun m => m.team.slug) = [none] ∧
    c2Input.forRoutingForms = true := by
  decide

/-- Claim C2 as amended: the slug of a team group follows the spec rule except
that in a routing-forms request a null team slug is rendered as the text
"null" after the "team/" marker (rather than resolving to nil); outside
routing forms a null slug resolves to nil.  The JS-truthiness corner cases of
an empty-string slug and a zero parent id are excluded by hypothesis. -/
theorem teamGroup_slug_amended (u : UserRecord) (input : GetByViewerInput)
    (m : MembershipRow) (hempty : m.team.slug ≠ some "") (hpz : m.team.parentId ≠ some 0) :
    (mkTeamGroup u input m).profile.slug =
      resolvedSlugSpecAmended input.forRoutingForms m.team := by
  show resolveTeamSlug input.forRoutingForms m.team = _
  unfold resolveTeamSlug resolvedSlugSpecAmended
  cases input.forRoutingForms with
  | true =>
    cases m.team.slug <;> simp [jsTemplateOptStr]
  | false =>
    cases hs : m.team.slug with
    | none => simp [truthyStr]
    | some s =>
      have hsne : s ≠ "" := by
        intro h
        apply hempty
        rw [hs, h]
      cases hp : m.team.parentId with
      | none => simp [truthyStr, hsne, truthyNat, jsTemplateOptStr]
      | some p =>
        have hpne : p ≠ 0 := by
          intro h
          apply hpz
          rw [hp, h]
        simp [truthyStr, hsne, truthyNat, hpne, jsTemplateOptStr]

/-- Witness for the amended claim C2: an org sub-team with slug "sales" and
parent 2, outside routing forms, resolving to the bare slug. -/
theorem teamGroup_slug_amended_witness :
    c2wMembership.team.slug ≠ some "" ∧ c2wMembership.team.parentId ≠ some 0 ∧
    (mkTeamGroup c2wViewer c2wInput c2wMembership).profile.slug =
      resolvedSlugSpecAmended c2wInput.forRoutingForms c2wMembership.team :=
  ⟨by decide, by decide,
    teamGroup_slug_amended c2wViewer c2wInput c2wMembership (by decide) (by decide)⟩

/-!
Claim C1.
-/

/-- Counterexample to claim C1 as stated: with an active filter set that
lists only user ids (no team-id criterion), the team group of the accepted
non-organization membership of team 7 is excluded from eventTypeGroups, while
the claim requires it to be included. -/
theorem userIds_only_filter_counterexample :
    (getByViewer c1Viewer c1Input).eventTypeGroups.map (fun g => g.teamId) = [none] ∧
    (acceptedMemberships c1Viewer).map (fun m => (m.team.id, m.team.isOrganization)) =
      [(7, false)] ∧
    c1Input.filters = some { userIds := some [1], teamIds := none } ∧
    hasFilter { userIds := some [1], teamIds := none } = true := by
  decide

/-- Claim C1 as amended: under an active filter set, a team group arising
from an accepted non-organization membership is included iff the filter has a
teamIds criterion listing the team id; in particular an active filter with no
teamIds criterion (for example a userIds-only filter) excludes every team
group. -/
theorem teamGroups_active_filter_amended (u : UserRecord) (input : GetByViewerInput)
    (f : Filters) (hf : input.filters = some f) (hactive : hasFilter f = true) :
    teamGroups u input =
      ((acceptedMemberships u).filter (fun m =>
        !m.team.isOrganization &&
        (match f.teamIds with
         | some ts => decide (m.team.id ∈ ts)
         | none => false))).map (mkTeamGroup u input) ∧
    (f.teamIds = none → teamGroups u input = []) := by
  have hia : filtersInactive input = false := by
    simp [filtersInactive, hf, hactive]
  have hpred : ∀ m : MembershipRow,
      includeTeamMembership input m =
        (!m.team.isOrganization &&
          (match f.teamIds with
           | some ts => decide (m.team.id ∈ ts)
           | none => false)) := by
    intro m
    unfold includeTeamMembership
    rw [hia, hf]
    cases m.team.isOrganization <;> simp
  constructor
  · unfold teamGroups
    rw [List.filter_congr (fun m _ => hpred m)]
  · intro hnone
    unfold teamGroups
    have hnil : (acceptedMemberships u).filter (includeTeamMembership input) = [] := by
      apply List.filter_eq_nil_iff.mpr
      intro m _
      rw [hpred m, hnone]
      simp
    rw [hnil]
    rfl

/-- Witness for the amended claim C1: an active teamIds-only filter listing
team 8 keeps exactly the matching membership. -/
theorem teamGroups_active_filter_amended_witness :
    c1wInput.filters = some c1wFilters ∧ hasFilter c1wFilters = true ∧
    (teamGroups c1wViewer c1wInput =
      ((acceptedMemberships c1wViewer).filter (fun m =>
        !m.team.isOrganization &&
        (match c1wFilters.teamIds with
         | some ts => decide (m.team.id ∈ ts)
         | none => false))).map (mkTeamGroup c1wViewer c1wInput) ∧
     (c1wFilters.teamIds = none → teamGroups c1wViewer c1wInput = [])) :=
  ⟨rfl, by decide,
    teamGroups_active_filter_amended c1wViewer c1wInput c1wFilters rfl (by decide)⟩

/-!
Claim C4.
-/

/-- Claim C4: for every team group produced by getByViewer (over stores whose
ids are nonzero, as database ids are), the membershipRole is the stronger of
the parent-org role and the native team role when the viewer holds an
(accepted) membership of the parent, and the native role otherwise; and the
readOnly flag is set exactly when that effective role is MEMBER. -/
theorem teamGroup_effective_role_readOnly (u : UserRecord) (input : GetByViewerInput)
    (hz : ∀ m ∈ u.teams, m.team.parentId ≠ some 0) :
    ∀ g ∈ (getByViewer u input).eventTypeGroups, g.teamId ≠ none →
      ∃ m, m ∈ acceptedMemberships u ∧ g = mkTeamGroup u input m ∧
        g.membershipRole = some (match findOrgMembership u m.team.parentId with
          | some o => strongerRole o m.role
          | none => m.role) ∧
        (g.metadata.readOnly = true ↔ g.membershipRole = some MembershipRole.MEMBER) := by
  intro g hg hne
  obtain ⟨m, hm, _hinc, hmk⟩ := teamGroup_of_mem hg hne
  refine ⟨m, hm, hmk.symm, ?_, ?_⟩
  · rw [← hmk]
    show some (effectiveMembershipRole (findOrgMembership u m.team.parentId) m.role) = _
    cases horg : findOrgMembership u m.team.parentId with
    | none => rfl
    | some o => rw [effectiveRole_eq_strongerRole]
  · rw [← hmk]
    show teamGroupReadOnly (findOrgMembership u m.team.parentId) m.role m.team.parentId = true ↔
      some (effectiveMembershipRole (findOrgMembership u m.team.parentId) m.role) =
        some MembershipRole.MEMBER
    simp only [Option.some.injEq]
    have hz' := hz m (List.mem_of_mem_filter hm)
    cases hp : m.team.parentId with
    | none =>
      rw [findOrgMembership_parent_none]
      cases m.role <;> decide
    | some p =>
      have hpne : p ≠ 0 := by
        intro h0
        apply hz'
        rw [hp, h0]
      exact readOnly_eq_of_parent _ _ _ (by simp [truthyNat, hpne])

/-- Witness for claim C4: viewer 1 is OWNER of organization 2 and plain MEMBER
of sub-team 3, so the effective role of the team-3 group is upgraded. -/
theorem teamGroup_effective_role_readOnly_witness :
    (∀ m ∈ c4Viewer.teams, m.team.parentId ≠ some 0) ∧
    (∀ g ∈ (getByViewer c4Viewer c4Input).eventTypeGroups, g.teamId ≠ none →
      ∃ m, m ∈ acceptedMemberships c4Viewer ∧ g = mkTeamGroup c4Viewer c4Input m ∧
        g.membershipRole = some (match findOrgMembership c4Viewer m.team.parentId with
          | some o => strongerRole o m.role
          | none => m.role) ∧
        (g.metadata.readOnly = true ↔ g.membershipRole = some MembershipRole.MEMBER)) :=
  ⟨by decide, teamGroup_effective_role_readOnly c4Viewer c4Input (by decide)⟩

/-!
Claim C5.
-/

/-- Claim C5: in every team group, a native MEMBER role filters out MANAGED
event types while ADMIN / OWNER roles leave the list of the previous stage
untouched, and every listed event type has a null userId or the viewer id. -/
theorem teamGroup_member_managed_owner_filter (u : UserRecord) (input : GetByViewerInput) :
    ∀ g ∈ (getByViewer u input).eventTypeGroups, g.teamId ≠ none →
      ∃ m, m ∈ acceptedMemberships u ∧ g = mkTeamGroup u input m ∧
        (m.role = MembershipRole.MEMBER →
          ∀ e ∈ g.eventTypes, e.schedulingType ≠ some SchedulingType.MANAGED) ∧
        (m.role ≠ MembershipRole.MEMBER →
          g.eventTypes = teamGroupEventTypesBeforeRoleFilter input u.id m) ∧
        (∀ e ∈ g.eventTypes, e.userId = none ∨ e.userId = some u.id) := by
  intro g hg hne
  obtain ⟨m, hm, _hinc, hmk⟩ := teamGroup_of_mem hg hne
  refine ⟨m, hm, hmk.symm, ?_, ?_, ?_⟩
  · intro hrole e he
    rw [← hmk] at he
    have hpred := (List.mem_filter.mp he).2
    rw [hrole] at hpred
    simpa using hpred
  · intro hrole
    rw [← hmk]
    show teamGroupEventTypes input u.id m = _
    unfold teamGroupEventTypes
    apply List.filter_eq_self.mpr
    intro e _
    rw [if_neg hrole]
  · intro e he
    rw [← hmk] at he
    have he2 := List.mem_of_mem_filter he
    have hpred := (List.mem_filter.mp he2).2
    rcases (Bool.or_eq_true _ _).mp hpred with h1 | h1
    · exact Or.inl (of_decide_eq_true h1)
    · exact Or.inr (of_decide_eq_true h1)

unseal List.merge List.mergeSort in
/-- Witness for claim C5: viewer 1 is plain MEMBER of team 9, which holds a
MANAGED event type, a plain one, and one pinned to another user; the group of
team 9 is taken as the concrete group. -/
theorem teamGroup_member_managed_owner_filter_witness :
    mkTeamGroup c5Viewer c5Input
        { role := MembershipRole.MEMBER, accepted := true, team := c5Team } ∈
      (getByViewer c5Viewer c5Input).eventTypeGroups ∧
    (mkTeamGroup c5Viewer c5Input
        { role := MembershipRole.MEMBER, accepted := true, team := c5Team }).teamId ≠ none ∧
    ∃ m, m ∈ acceptedMemberships c5Viewer ∧
      mkTeamGroup c5Viewer c5Input
          { role := MembershipRole.MEMBER, accepted := true, team := c5Team } =
        mkTeamGroup c5Viewer c5Input m ∧
      (m.role = MembershipRole.MEMBER →
        ∀ e ∈ (mkTeamGroup c5Viewer c5Input
            { role := MembershipRole.MEMBER, accepted := true, team := c5Team }).eventTypes,
          e.schedulingType ≠ some SchedulingType.MANAGED) ∧
      (m.role ≠ MembershipRole.MEMBER →
        (mkTeamGroup c5Viewer c5Input
            { role := MembershipRole.MEMBER, accepted := true, team := c5Team }).eventTypes =
          teamGroupEventTypesBeforeRoleFilter c5Input c5Viewer.id m) ∧
      (∀ e ∈ (mkTeamGroup c5Viewer c5Input
          { role := MembershipRole.MEMBER, accepted := true, team := c5Team }).eventTypes,
        e.userId = none ∨ e.userId = some c5Viewer.id) :=
  ⟨by decide, by decide,
    teamGroup_member_managed_owner_filter c5Viewer c5Input _ (by decide) (by decide)⟩

/-!
Claim C8.
-/

/-- Claim C8: assuming the store returns every team event-type list ordered by
(position desc, id asc), every group of the output carries event types totally
ordered that way, and the output is deterministic (the handler is a pure
function of the store and input). -/
theorem getByViewer_sorted_deterministic (u : UserRecord) (input : GetByViewerInput)
    (h : ∀ m ∈ u.teams, m.team.eventTypes.Pairwise PosIdOrderRaw) :
    (∀ g ∈ (getByViewer u input).eventTypeGroups, g.eventTypes.Pairwise PosIdOrder) ∧
    getByViewer u input = getByViewer u input := by
  refine ⟨?_, rfl⟩
  intro g hg
  rw [eventTypeGroups_eq] at hg
  rcases List.mem_append.mp hg with hp | ht
  · cases hpg : includePersonalGroup input u.id <;> rw [hpg] at hp
    · simp at hp
    · simp at hp
      rw [hp]
      exact pairwise_orderBy _
  · obtain ⟨m, hm, _hinc, hmk⟩ := mem_teamGroups.mp ht
    rw [← hmk]
    show (teamGroupEventTypes input u.id m).Pairwise PosIdOrder
    have hraw := h m (List.mem_of_mem_filter hm)
    have hmap : (m.team.eventTypes.map mapEventType).Pairwise PosIdOrder :=
      List.Pairwise.map mapEventType (fun a b hab => hab) hraw
    unfold teamGroupEventTypes teamGroupEventTypesBeforeRoleFilter
    exact ((hmap.filter _).filter _).filter _

/-- Witness for claim C8: a store whose team event types are sorted by
(position desc, id asc) while the personal rows arrive unsorted (the handler
sorts them itself). -/
theorem getByViewer_sorted_deterministic_witness :
    (∀ m ∈ c8Viewer.teams, m.team.eventTypes.Pairwise PosIdOrderRaw) ∧
    ((∀ g ∈ (getByViewer c8Viewer c8Input).eventTypeGroups, g.eventTypes.Pairwise PosIdOrder) ∧
     getByViewer c8Viewer c8Input = getByViewer c8Viewer c8Input) :=
  ⟨by decide, getByViewer_sorted_deterministic c8Viewer c8Input (by decide)⟩

/-!
Claim C3.
-/

unseal List.merge List.mergeSort in
/-- Counterexample to claim C3 as stated: with an active filter whose userIds
list is [2, 1], the personal group of viewer 1 is included (the inclusion
check uses list membership) but its event-type list is empty, although the
viewer owns a non-managed personal event type — the store query compares only
the FIRST filter entry against the viewer id and falls back to userId 0. -/
theorem personal_filter_firstEntry_counterexample :
    (getByViewer c3Viewer c3Input).eventTypeGroups.map (fun g => (g.teamId, g.eventTypes)) =
      [(none, [])] ∧
    (c3Viewer.eventTypes.filter (fun e =>
      decide (e.teamId = none) && decide (e.userId = some c3Viewer.id) &&
      decide (e.schedulingType ≠ some SchedulingType.MANAGED))).map (fun e => e.id) = [1] ∧
    c3Input.filters = some { userIds := some [2, 1], teamIds := none } ∧
    includePersonalGroup c3Input c3Viewer.id = true := by
  decide

/-- Claim C3 as amended: the personal group is included exactly when no filter
set is active or filters.userIds contains the viewer id; when included it is
the first group, its event types are exactly the mapped teamId-null rows whose
userId equals getPrismaWhereUserIdFromFilter(viewer, filters) — the viewer id
unless a filter is active whose userIds does not START with the viewer id, in
which case the sentinel 0 (yielding an empty list) — excluding MANAGED, and
they are sorted by (position desc, id asc). -/
theorem personalGroup_amended (u : UserRecord) (input : GetByViewerInput) :
    (includePersonalGroup input u.id = true ↔
      (filtersInactive input = true ∨
        ∃ us, input.filters.bind Filters.userIds = some us ∧ u.id ∈ us)) ∧
    (includePersonalGroup input u.id = true →
      ((getByViewer u input).eventTypeGroups.head? = some (personalGroup u input.filters) ∧
       (∀ e, e ∈ (personalGroup u input.filters).eventTypes ↔
         ∃ raw, raw ∈ u.eventTypes ∧ raw.teamId = none ∧
           raw.userId = some (getPrismaWhereUserIdFromFilter u.id input.filters) ∧
           mapEventType raw = e ∧ e.schedulingType ≠ some SchedulingType.MANAGED) ∧
       (personalGroup u input.filters).eventTypes.Pairwise PosIdOrder)) ∧
    (includePersonalGroup input u.id = false →
      ∀ g ∈ (getByViewer u input).eventTypeGroups, g.teamId ≠ none) := by
  refine ⟨?_, ?_, ?_⟩
  · cases hf : input.filters with
    | none => simp [includePersonalGroup, filtersInactive, hf]
    | some f =>
      simp only [includePersonalGroup, filtersInactive, hf, Option.some_bind]
      rw [Bool.or_eq_true]
      cases hus : f.userIds with
      | none => simp
      | some us => simp
  · intro hinc
    refine ⟨?_, ?_, ?_⟩
    · rw [eventTypeGroups_eq, if_pos hinc]
      rfl
    · intro e
      show e ∈ orderByPosDescIdAsc (unmanagedEventTypes u input.filters) ↔ _
      rw [mem_orderBy]
      simp only [unmanagedEventTypes, personalEventTypeRows, List.mem_filter,
        List.mem_map, Bool.and_eq_true, decide_eq_true_eq]
      constructor
      · rintro ⟨⟨raw, ⟨hraw, hteam, huser⟩, hmapeq⟩, hsched⟩
        exact ⟨raw, hraw, hteam, huser, hmapeq, hsched⟩
      · rintro ⟨raw, hraw, hteam, huser, hmapeq, hsched⟩
        exact ⟨⟨raw, ⟨hraw, hteam, huser⟩, hmapeq⟩, hsched⟩
    · exact pairwise_orderBy _
  · intro hninc g hg
    rw [eventTypeGroups_eq] at hg
    rw [if_neg (by simp [hninc])] at hg
    simp only [List.nil_append] at hg
    obtain ⟨m, _, _, hmk⟩ := mem_teamGroups.mp hg
    rw [← hmk]
    simp [mkTeamGroup]

unseal List.merge List.mergeSort in
/-- Witness for the amended claim C3: a request with no filter set over a
viewer with two plain personal event types (stored out of display order) and
one MANAGED personal event type. -/
theorem personalGroup_amended_witness :
    (includePersonalGroup c3wInput c3wViewer.id = true ↔
      (filtersInactive c3wInput = true ∨
        ∃ us, c3wInput.filters.bind Filters.userIds = some us ∧ c3wViewer.id ∈ us)) ∧
    (includePersonalGroup c3wInput c3wViewer.id = true →
      ((getByViewer c3wViewer c3wInput).eventTypeGroups.head? =
          some (personalGroup c3wViewer c3wInput.filters) ∧
       (∀ e, e ∈ (personalGroup c3wViewer c3wInput.filters).eventTypes ↔
         ∃ raw, raw ∈ c3wViewer.eventTypes ∧ raw.teamId = none ∧
           raw.userId = some (getPrismaWhereUserIdFromFilter c3wViewer.id c3wInput.filters) ∧
           mapEventType raw = e ∧ e.schedulingType ≠ some SchedulingType.MANAGED) ∧
       (personalGroup c3wViewer c3wInput.filters).eventTypes.Pairwise PosIdOrder)) ∧
    (includePersonalGroup c3wInput c3wViewer.id = false →
      ∀ g ∈ (getByViewer c3wViewer c3wInput).eventTypeGroups, g.teamId ≠ none) :=
  personalGroup_amended c3wViewer c3wInput

/-!
Claim C6.
-/

/-- Claim C6: when the handler finds a team with the given id flagged
isOrganization (and the unguarded reads succeed: a first OWNER member exists,
its user row resolves, the owner email has a domain part, and a settings row
exists), it marks the organization verified, and atomically accepts the
org / sub-team memberships of every organization member whose email ends with
the domain of the first OWNER, stamps the organizationId of those users, and
returns the confirmation message naming the domain; users whose email does
not end with the domain, and memberships of users no matching user row maps
to, are untouched. -/
theorem adminVerify_success (db : Db) (orgId : Nat) (torg : DbTeam) (m0 : DbMembership)
    (owner : DbUser) (domain : String)
    (hOrg : findOrg db orgId = some torg)
    (hM0 : (ownerMembers db orgId).head? = some m0)
    (hOwner : db.users.find? (fun usr => decide (usr.id = m0.userId)) = some owner)
    (hDomain : (strSplitOnAt owner.email).get? 1 = some domain)
    (hSettings : db.orgSettings.any (fun s => decide (s.organizationId = orgId)) = true)
    (hNodup : (db.users.map DbUser.id).Nodup) :
    (adminVerifyHandler db orgId).1 =
      Except.ok ("Verified Organization - Auto accepted all members ending in " ++ domain) ∧
    (∀ s ∈ db.orgSettings, s.organizationId = orgId →
      { s with isOrganizationVerified := true } ∈ (adminVerifyHandler db orgId).2.orgSettings) ∧
    (∀ s ∈ db.orgSettings, s.organizationId ≠ orgId →
      s ∈ (adminVerifyHandler db orgId).2.orgSettings) ∧
    (∀ usr ∈ db.users, strEndsWith usr.email domain = true →
      (∃ mm ∈ db.memberships, mm.userId = usr.id ∧ mm.teamId = orgId) →
      { usr with organizationId := some orgId } ∈ (adminVerifyHandler db orgId).2.users) ∧
    (∀ usr ∈ db.users, strEndsWith usr.email domain = false →
      usr ∈ (adminVerifyHandler db orgId).2.users) ∧
    (∀ mm ∈ db.memberships,
      (∃ usr ∈ db.users, usr.id = mm.userId ∧ strEndsWith usr.email domain = true ∧
        ∃ mo ∈ db.memberships, mo.userId = usr.id ∧ mo.teamId = orgId) →
      (mm.teamId = orgId ∨ membershipTeamParentIs db.teams mm orgId = true) →
      { mm with accepted := true } ∈ (adminVerifyHandler db orgId).2.memberships) ∧
    (∀ mm ∈ db.memberships,
      (∀ usr ∈ db.users, usr.id = mm.userId → strEndsWith usr.email domain = false) →
      mm ∈ (adminVerifyHandler db orgId).2.memberships) := by
  have hrun : adminVerifyHandler db orgId =
      (Except.ok ("Verified Organization - Auto accepted all members ending in " ++ domain),
        { users := db.users.map (fun usr =>
            if usr.id ∈ (usersWithMatchingEmailDomain db orgId domain).map DbUser.id then
              { usr with organizationId := some orgId }
            else usr)
          teams := db.teams
          memberships := db.memberships.map (fun m =>
            if decide (m.userId ∈ (usersWithMatchingEmailDomain db orgId domain).map DbUser.id) &&
                (membershipTeamParentIs db.teams m orgId || decide (m.teamId = orgId)) then
              { m with accepted := true }
            else m)
          orgSettings := db.orgSettings.map (fun s =>
            if s.organizationId = orgId then { s with isOrganizationVerified := true }
            else s) }) := by
    unfold adminVerifyHandler
    have hDomain2 : (strSplitOnAt owner.email)[1]? = some domain := by
      rw [← List.get?_eq_getElem?]
      exact hDomain
    simp [hOrg, hM0, hOwner, hDomain2, hSettings]
    constructor
    · intro a _
      rfl
    · intro a _
      rfl
  have hUserIn : ∀ usr ∈ db.users, strEndsWith usr.email domain = true →
      (∃ mm ∈ db.memberships, mm.userId = usr.id ∧ mm.teamId = orgId) →
      usr.id ∈ (usersWithMatchingEmailDomain db orgId domain).map DbUser.id := by
    intro usr hu hend hmem
    apply List.mem_map_of_mem
    unfold usersWithMatchingEmailDomain
    apply List.mem_filter.mpr
    refine ⟨hu, (Bool.and_eq_true _ _).mpr ⟨hend, ?_⟩⟩
    obtain ⟨mm, hmmIn, hmid, hmtid⟩ := hmem
    apply List.any_eq_true.mpr
    exact ⟨mm, hmmIn,
      (Bool.and_eq_true _ _).mpr ⟨decide_eq_true hmid, decide_eq_true hmtid⟩⟩
  have hIdIn : ∀ n, n ∈ (usersWithMatchingEmailDomain db orgId domain).map DbUser.id →
      ∃ usr ∈ db.users, usr.id = n ∧ strEndsWith usr.email domain = true := by
    intro n hn
    obtain ⟨usr, husr, hid⟩ := List.mem_map.mp hn
    have h2 := List.mem_filter.mp husr
    rcases (Bool.and_eq_true _ _).mp h2.2 with ⟨hend, _⟩
    exact ⟨usr, h2.1, hid, hend⟩
  rw [hrun]
  refine ⟨rfl, ?_, ?_, ?_, ?_, ?_, ?_⟩
  · intro s hs hsid
    exact List.mem_map.mpr ⟨s, hs, by rw [if_pos hsid]⟩
  · intro s hs hsid
    exact List.mem_map.mpr ⟨s, hs, by rw [if_neg hsid]⟩
  · intro usr hu hend hmem
    exact List.mem_map.mpr ⟨usr, hu, by rw [if_pos (hUserIn usr hu hend hmem)]⟩
  · intro usr hu hend
    have hnotin : usr.id ∉ (usersWithMatchingEmailDomain db orgId domain).map DbUser.id := by
      intro hin
      obtain ⟨usr2, hu2, hid2, hend2⟩ := hIdIn usr.id hin
      have : usr2 = usr := List.inj_on_of_nodup_map hNodup hu2 hu hid2
      rw [this] at hend2
      rw [hend] at hend2
      exact Bool.false_ne_true hend2
    exact List.mem_map.mpr ⟨usr, hu, by rw [if_neg hnotin]⟩
  · intro mm hmm hex hteam
    obtain ⟨usr, husr, huid, huend, mo, hmo, hmoid, hmotid⟩ := hex
    have hid : mm.userId ∈ (usersWithMatchingEmailDomain db orgId domain).map DbUser.id := by
      have := hUserIn usr husr huend ⟨mo, hmo, hmoid, hmotid⟩
      rw [huid] at this
      exact this
    have hcond :
        (decide (mm.userId ∈ (usersWithMatchingEmailDomain db orgId domain).map DbUser.id) &&
          (membershipTeamParentIs db.teams mm orgId || decide (mm.teamId = orgId))) = true := by
      apply (Bool.and_eq_true _ _).mpr
      refine ⟨decide_eq_true hid, ?_⟩
      rcases hteam with h1 | h1
      · exact (Bool.or_eq_true _ _).mpr (Or.inr (decide_eq_true h1))
      · exact (Bool.or_eq_true _ _).mpr (Or.inl h1)
    exact List.mem_map.mpr ⟨mm, hmm, by rw [if_pos hcond]⟩
  · intro mm hmm hall
    have hcond :
        ¬((decide (mm.userId ∈ (usersWithMatchingEmailDomain db orgId domain).map DbUser.id) &&
          (membershipTeamParentIs db.teams mm orgId || decide (mm.teamId = orgId))) = true) := by
      intro hc
      rcases (Bool.and_eq_true _ _).mp hc with ⟨h1, _⟩
      obtain ⟨usr, hu, hid, hend⟩ := hIdIn mm.userId (of_decide_eq_true h1)
      rw [hall usr hu hid] at hend
      exact Bool.false_ne_true hend
    exact List.mem_map.mpr ⟨mm, hmm, by rw [if_neg hcond]⟩

/-- Witness for claim C6: the end-to-end scenario of the spec over the store
c6Db (organization 1, owner owner@acme.com, members a@acme.com and
b@other.com). -/
theorem adminVerify_success_witness :
    findOrg c6Db 1 = some { id := 1, parentId := none, isOrganization := true } ∧
    (ownerMembers c6Db 1).head? =
      some { userId := 10, teamId := 1, role := MembershipRole.OWNER, accepted := true } ∧
    c6Db.users.find? (fun usr => decide (usr.id = 10)) =
      some { id := 10, email := "owner@acme.com", organizationId := none } ∧
    (strSplitOnAt "owner@acme.com").get? 1 = some "acme.com" ∧
    c6Db.orgSettings.any (fun s => decide (s.organizationId = 1)) = true ∧
    (c6Db.users.map DbUser.id).Nodup ∧
    ((adminVerifyHandler c6Db 1).1 =
      Except.ok ("Verified Organization - Auto accepted all members ending in " ++ "acme.com") ∧
    (∀ s ∈ c6Db.orgSettings, s.organizationId = 1 →
      { s with isOrganizationVerified := true } ∈ (adminVerifyHandler c6Db 1).2.orgSettings) ∧
    (∀ s ∈ c6Db.orgSettings, s.organizationId ≠ 1 →
      s ∈ (adminVerifyHandler c6Db 1).2.orgSettings) ∧
    (∀ usr ∈ c6Db.users, strEndsWith usr.email "acme.com" = true →
      (∃ mm ∈ c6Db.memberships, mm.userId = usr.id ∧ mm.teamId = 1) →
      { usr with organizationId := some 1 } ∈ (adminVerifyHandler c6Db 1).2.users) ∧
    (∀ usr ∈ c6Db.users, strEndsWith usr.email "acme.com" = false →
      usr ∈ (adminVerifyHandler c6Db 1).2.users) ∧
    (∀ mm ∈ c6Db.memberships,
      (∃ usr ∈ c6Db.users, usr.id = mm.userId ∧ strEndsWith usr.email "acme.com" = true ∧
        ∃ mo ∈ c6Db.memberships, mo.userId = usr.id ∧ mo.teamId = 1) →
      (mm.teamId = 1 ∨ membershipTeamParentIs c6Db.teams mm 1 = true) →
      { mm with accepted := true } ∈ (adminVerifyHandler c6Db 1).2.memberships) ∧
    (∀ mm ∈ c6Db.memberships,
      (∀ usr ∈ c6Db.users, usr.id = mm.userId → strEndsWith usr.email "acme.com" = false) →
      mm ∈ (adminVerifyHandler c6Db 1).2.memberships)) :=
  ⟨by decide, by decide, by decide, by decide, by decide, by decide,
    adminVerify_success c6Db 1
      { id := 1, parentId := none, isOrganization := true }
      { userId := 10, teamId := 1, role := MembershipRole.OWNER, accepted := true }
      { id := 10, email := "owner@acme.com", organizationId := none }
      "acme.com" (by decide) (by decide) (by decide) (by decide) (by decide) (by decide)⟩
